import Mathlib

/-!
Shallow embedding of the tap-talkable connector
(tap_talkable/client.py, tap_talkable/streams.py, tap_talkable/tap.py).

Modelling conventions:
* a Python `datetime` is an `Int` counting seconds; the calendar date of a
  datetime (its `%Y-%m-%d` part, `.date()`) is the `Int` day number obtained
  by floor division (`toDate`);
* Python `None`-able values are `Option`; a function whose body could `raise`
  returns `Except String _`, with every non-raising path wrapped in
  `Except.ok`;
* JSON values are the inductive `Json`; query-parameter dictionaries are
  association lists or dedicated structures mirroring the dict the source
  builds.
-/

namespace TapTalkable

/-- Seconds in one day, the unit behind `datetime.timedelta(days=1)`. -/
def secondsPerDay : Int := 86400

/-- `datetime.timedelta(days := n)` as seconds. -/
def days (n : Int) : Int := n * secondsPerDay

/-- Calendar date (day number) of a datetime, the `%Y-%m-%d` truncation that
`strftime` / `.date()` perform: floor division by the length of a day. -/
def toDate (t : Int) : Int := t / secondsPerDay

/-- Midnight datetime of a day number, as produced by
`datetime.strptime(s, "%Y-%m-%d")` on a formatted date. -/
def midnight (d : Int) : Int := d * secondsPerDay

/-- JSON values: response bodies and generic parameter/context values. -/
inductive Json where
  | null
  | bool (b : Bool)
  | num (n : Int)
  | str (s : String)
  | arr (elems : List Json)
  | obj (fields : List (String × Json))

/-- Tap configuration (`TapTalkable.config_jsonschema` in tap.py): `api_key`
and `site_slug` required strings, `start_date` a datetime defaulting to
2019-01-01T00:00:00Z, plus the optional `user_agent` read by the client. -/
structure Config where
  api_key : String
  site_slug : String
  start_date : Int
  user_agent : Option String := none

namespace TalkableStream

/-- `TalkableStream.url_base` (client.py). -/
def url_base : String := "https://www.talkable.com/api/v2"

/-- `TalkableStream.records_jsonpath` (client.py). -/
def records_jsonpath : String := "$.result[*]"

/-- `TalkableStream.next_page_token_jsonpath` (client.py). -/
def next_page_token_jsonpath : String := "$.next_page"

/-- An HTTP response as the client sees it: parsed JSON body plus headers. -/
structure Response where
  body : Json
  headers : List (String × String)

/-- The framework's `extract_jsonpath`, modelled for the single-field paths
`$.<field>` this tap uses: on a JSON object, the values bound to that field
name (at most one, object keys being unique); no match on anything else. -/
def extract_jsonpath (path : String) (body : Json) : List Json :=
  if path.startsWith ("$.") then
    match body with
    | .obj fields => (fields.filter (fun f => f.1 = path.drop 2)).map (fun f => f.2)
    | _ => []
  else []

/-- `TalkableStream.get_next_page_token` (client.py): when the next-page JSON
path is set (truthy, i.e. a non-empty string) take the first JSON-path match
of the response body; otherwise fall back to the `X-Next-Page` header. -/
def get_next_page_token (response : Response) (previous_token : Option Json) : Option Json :=
  if next_page_token_jsonpath ≠ "" then
    (extract_jsonpath next_page_token_jsonpath response.body).head?
  else
    (response.headers.lookup ("X-Next-Page")).map Json.str

end TalkableStream

namespace CampaignsStream

/-- A campaign record, per the declared schema of `CampaignsStream`. -/
structure CampaignRecord where
  id : Int
  slug : Int
  is_active : Bool
  appearance : String
  joinable_category_names : List String
  name : String
  status : String
  tag_names : List String
  new_customer : String
  origin_min_age : Int
  origin_max_age : Int

/-- `CampaignsStream.get_url_params` (streams.py): only the configured site
slug, whatever the context and next-page token are. -/
def get_url_params (config : Config) (context : Option Json)
    (next_page_token : Option Json) : List (String × String) :=
  [("site_slug", config.site_slug)]

/-- The child context passed down to dependent streams. -/
structure ChildContext where
  campaign_id : Int
  deriving DecidableEq, Repr

/-- `CampaignsStream.get_child_context` (streams.py). -/
def get_child_context (record : CampaignRecord) (context : Option Json) : ChildContext :=
  { campaign_id := record.id }

end CampaignsStream

/-- `MATH_METRICS` (streams.py). -/
def MATH_METRICS : List String := [
  "sign_up_percentage", "advocate_pages_shown", "advocate_impressions", "widget_click_percentage",
  "advocacy_percentage", "sharing_rate", "click_rate", "total_sales_aov", "visit_percentage",
  "refunded_sales_percentage", "refunded_sales_aov", "average_order_value", "revenue_percentage",
  "total_first_time_sales_aov", "conversion_percentage"
]

/-- `FRIEND_SALES_METRICS` (streams.py). -/
def FRIEND_SALES_METRICS : List String := [
  "total_referred_sales_count", "total_referred_sales_sum", "talkable_sales_count", "talkable_sales_sum",
  "talkable_sales_with_talkable_coupon_count", "talkable_sales_with_talkable_coupon_sum",
  "talkable_sales_with_talkable_coupon_and_new_count", "talkable_sales_with_talkable_coupon_and_new_sum",
  "talkable_sales_with_talkable_coupon_and_not_new_count", "talkable_sales_with_talkable_coupon_and_not_new_sum",
  "referred_sales_new_count", "referred_sales_new_sum", "talkable_qualified_sales_count", "talkable_qualified_sales_sum",
  "ideal_friend_sales_count", "ideal_friend_sales_sum"
]

/-- `ADVOCATE_SALES_METRICS` (streams.py). -/
def ADVOCATE_SALES_METRICS : List String := [
  "ideal_advocate_sales_new_customers_count", "ideal_advocate_sales_new_customers_sum",
  "ideal_advocate_sales_existing_customers_count", "ideal_advocate_sales_existing_customers_sum",
  "ideal_advocate_sales_count", "ideal_advocate_sales_sum"
]

/-- `PREDEFINED_METRICS` (streams.py). -/
def PREDEFINED_METRICS : List String := [
  "offers",
  "clicks", "clicks_unique", "first_time_clicks", "visits", "visits_unique", "first_time_visits", "email_gated", "emails_collected_on_claim", "email_gated_and_opted_in", "email_gated_and_opted_in_new",
  "customers", "new_customers", "visited_referrals",
  "total_first_time_sales_count", "total_first_time_sales_sum",
  "total_sales_count", "total_sales_sum", "total_sales_with_curebit_coupon_count", "total_sales_with_curebit_coupon_sum", "total_sales_with_talkable_ad_coupon_count", "total_sales_with_talkable_ad_coupon_sum", "total_sales_with_talkable_fr_coupon_count", "total_sales_with_talkable_fr_coupon_sum", "lift_in_sales", "refunded_sales_count", "refunded_sales_sum",
  "total_rewards_count", "total_rewards_sum", "ad_rewards_count", "ad_rewards_sum", "fr_rewards_count", "fr_rewards_sum", "advocate_loyalty_referral_rewards_count", "advocate_loyalty_referral_rewards_sum", "advocate_loyalty_referral_rewards_points", "advocate_referral_rewards_used_count", "friend_reward_paid_email_delivered", "friend_reward_paid_email_opened", "friend_reward_paid_email_clicked", "advocate_reward_paid_email_delivered", "advocate_reward_paid_email_opened", "advocate_reward_paid_email_clicked", "advocate_referral_rewards_paid_and_pending_count", "advocate_referral_rewards_paid_count",
  "offer_shown", "sharers", "shares", "multisharers", "share_emails_sent", "share_emails_delivered", "share_emails_opened", "share_emails_clicked",
  "signup_shown", "sign_up", "sign_up_and_opted_in", "sign_up_and_opted_in_new", "emails_collected_on_signup", "people", "advocate_offer_email_delivered", "advocate_offer_email_opened", "advocate_offer_email_clicked",
  "ideal_sales_count", "ideal_sales_sum", "dashboard_sales_count", "dashboard_sales_sum"
]

/-- `METRICS` (streams.py): concatenation of the four metric groups. -/
def METRICS : List String :=
  MATH_METRICS ++ FRIEND_SALES_METRICS ++ ADVOCATE_SALES_METRICS ++ PREDEFINED_METRICS

namespace CampaignMetricsStream

/-- `CampaignMetricsStream.path` (streams.py). -/
def path : String := "/metrics/{metric}/segmentize/"

/-- A stream partition, one per metric. -/
structure Partition where
  metric : String
  deriving DecidableEq, Repr

/-- `partitions = [{"metric": metric} for metric in METRICS]` (streams.py). -/
def partitions : List Partition := METRICS.map (fun metric => { metric := metric })

/-- The context a metrics request runs under: the metric of the partition and
the `campaign_id` inherited from the parent campaign record. -/
structure MetricsContext where
  metric : String
  campaign_id : Int

/-- A calendar date, the value `datetime.strptime` produces (time 00:00). -/
structure Date where
  year : Nat
  month : Nat
  day : Nat
  deriving DecidableEq, Repr

/-- Python `str.split(sep)` on explicit separator: splits at every occurrence,
keeping empty pieces, over the character list of the string. -/
def splitChar (sep : Char) : List Char → List (List Char)
  | [] => [[]]
  | c :: rest =>
    let r := splitChar sep rest
    if c = sep then [] :: r
    else
      match r with
      | [] => [[c]]
      | t :: ts => (c :: t) :: ts

/-- Numeric value of a list of decimal digits. -/
def digitsVal (l : List Char) : Nat := l.foldl (fun n c => 10 * n + (c.toNat - 48)) 0

/-- One numeric `strptime` field: all digits, between `lo` and `hi` of them,
with a value between `vlo` and `vhi`. -/
def parseField (l : List Char) (lo hi vlo vhi : Nat) : Option Nat :=
  if lo ≤ l.length ∧ l.length ≤ hi ∧ l.all Char.isDigit then
    let v := digitsVal l
    if vlo ≤ v ∧ v ≤ vhi then some v else none
  else none

/-- The POSIX two-digit-year pivot `%y` uses: 00–68 are the 2000s, 69–99 the
1900s. -/
def expandYear (y : Nat) : Nat := if y ≤ 68 then 2000 + y else 1900 + y

/-- Gregorian leap-year rule, as `datetime` validates dates with. -/
def isLeapYear (y : Nat) : Bool := (y % 4 == 0 && !(y % 100 == 0)) || y % 400 == 0

/-- Number of days in a month, as `datetime` validates dates with. -/
def daysInMonth (year month : Nat) : Nat :=
  if month = 2 then (if isLeapYear year then 29 else 28)
  else if month = 4 ∨ month = 6 ∨ month = 9 ∨ month = 11 then 30
  else 31

/-- `datetime.strptime(s, "%m/%d/%y")`: a one-or-two-digit month in 1–12, a
one-or-two-digit day in 1–31, an exactly-two-digit year expanded by the POSIX
pivot, and the calendar validity check the `datetime` constructor performs.
Any mismatch raises `ValueError` in Python, modelled as `none`. -/
def strptime_mdy (s : String) : Option Date :=
  match splitChar '/' s.data with
  | [ms, ds, ys] =>
    match parseField ms 1 2 1 12, parseField ds 1 2 1 31, parseField ys 2 2 0 99 with
    | some month, some day, some y2 =>
      let year := expandYear y2
      if day ≤ daysInMonth year month then some ⟨year, month, day⟩ else none
    | _, _, _ => none
  | _ => none

/-- `row["period"].split(' ')[0]`: the first space-separated token. -/
def firstSpaceToken (period : String) : String :=
  String.mk ((splitChar ' ' period.data).headD [])

/-- A segmented-metrics record: the `period` string the API returns, the
`date` slot `post_process` fills, and the remaining fields of the row. -/
structure MetricsRow where
  period : String
  date : Option Date := none
  other : List (String × Json) := []

/-- `CampaignMetricsStream.post_process` (streams.py): overwrite `date` with
the `%m/%d/%y` parse of the first space-separated token of `period`; a parse
failure propagates as the `ValueError` of `strptime`, modelled as `none`. -/
def post_process (row : MetricsRow) : Option MetricsRow :=
  (strptime_mdy (firstSpaceToken row.period)).map (fun d => { row with date := some d })

/-- The query-parameter dict `CampaignMetricsStream.get_url_params` builds;
`start_date` and `end_date` hold the day numbers of the `%Y-%m-%d`-formatted
dates, and `segment_by_period` stands for the `segment_by[period]` key. -/
structure MetricsParams where
  site_slug : String
  campaign_ids : List Int
  start_date : Int
  end_date : Int
  segment_by_period : String

/-- `CampaignMetricsStream.get_url_params` (streams.py). `starting_timestamp`
is the framework's `get_starting_timestamp(context)` — the last incremental
checkpoint when one exists — and `now` is `datetime.datetime.now()`; the
source falls back from a missing checkpoint to the parsed configured
`start_date` (`or`), caps the window end at
`min(start + timedelta(days=100), now - timedelta(days=1))` and formats both
bounds with `%Y-%m-%d`. -/
def get_url_params (config : Config) (context : MetricsContext)
    (starting_timestamp : Option Int) (next_page_token : Option Int)
    (now : Int) : MetricsParams :=
  let start_date : Int :=
    match next_page_token with
    | none => starting_timestamp.getD config.start_date
    | some t => t
  let yesterday := now - days 1
  let end_date := min (start_date + days 100) yesterday
  { site_slug := config.site_slug
    campaign_ids := [context.campaign_id]
    start_date := toDate start_date
    end_date := toDate end_date
    segment_by_period := "day" }

/-- The dated window read back from `response.request.url`: the day numbers of
the `start_date` and `end_date` query parameters the request was sent with. -/
structure RequestWindow where
  start_date : Int
  end_date : Int

/-- `CampaignMetricsStream.get_next_page_token` (streams.py): re-parse both
window bounds from the request URL (`strptime "%Y-%m-%d"` yields midnight
datetimes), return the end datetime as the next token when the start date
precedes the end date, `None` otherwise. `previous_token` is ignored and the
body contains no `raise`, so every path is `Except.ok`. -/
def get_next_page_token (request : RequestWindow) (previous_token : Option Int) :
    Except String (Option Int) :=
  let start_date := midnight request.start_date
  let end_date := midnight request.end_date
  Except.ok (if toDate start_date < toDate end_date then some end_date else none)

/-- The singer framework error classes `validate_response` raises. -/
inductive ApiError where
  | RetriableAPIError (msg : String)
  | FatalAPIError (msg : String)
  deriving DecidableEq, Repr

/-- `CampaignMetricsStream.validate_response` (streams.py): 429 raises
retriable, any other 4xx fatal, any 5xx retriable; every other status returns
normally (`none`). -/
def validate_response (status_code : Nat) (reason : String) : Option ApiError :=
  if status_code = 429 then
    some (.RetriableAPIError (s!"{status_code} Server Error: {reason} for path: {path}"))
  else if 400 ≤ status_code ∧ status_code < 500 then
    some (.FatalAPIError (s!"{status_code} Client Error: {reason} for path: {path}"))
  else if 500 ≤ status_code ∧ status_code < 600 then
    some (.RetriableAPIError (s!"{status_code} Server Error: {reason} for path: {path}"))
  else
    none

/-- A record as emitted for the campaign-metrics stream: the processed row
together with the `metric` and `campaign_id` identifiers declared in the
stream's schema and primary key `["campaign_id", "metric", "date"]`. -/
structure EmittedRecord where
  metric : String
  campaign_id : Int
  row : MetricsRow

/-- Modelled from the spec: the singer framework's partition handling, which
is not under src/ — each metrics request runs under a context pairing one
partition's `metric` with the `campaign_id` of the parent campaign's child
context ("one stream partition per metric"; "partitions incremental state
independently per metric"). -/
def context_for (p : Partition) (parent : CampaignsStream.ChildContext) : MetricsContext :=
  { metric := p.metric, campaign_id := parent.campaign_id }

/-- Modelled from the spec: the framework's record emission, which is not
under src/ — every emitted record carries the `metric` identifier of the
context it was extracted under, per the declared schema and primary keys
("every metric record's `metric` field is drawn from one fixed closed list of
named metric identifiers"). -/
def emit_record (context : MetricsContext) (row : MetricsRow) : EmittedRecord :=
  { metric := context.metric, campaign_id := context.campaign_id, row := row }

end CampaignMetricsStream

namespace TrafficSourcesStream

/-- `TrafficSourcesStream.get_url_params` (streams.py): only the configured
site slug, whatever the context and next-page token are. -/
def get_url_params (config : Config) (context : Option Json)
    (next_page_token : Option Json) : List (String × String) :=
  [("site_slug", config.site_slug)]

end TrafficSourcesStream

/-! Helper lemmas about the date model. -/

theorem toDate_midnight (d : Int) : toDate (midnight d) = d := by
  unfold toDate midnight secondsPerDay
  exact Int.mul_ediv_cancel d (by norm_num)

theorem toDate_add_days (t n : Int) : toDate (t + days n) = toDate t + n := by
  unfold toDate days secondsPerDay
  exact Int.add_mul_ediv_right t n (by norm_num)

theorem toDate_mono {a b : Int} (h : a ≤ b) : toDate a ≤ toDate b := by
  unfold toDate secondsPerDay
  exact Int.ediv_le_ediv (by norm_num) h

theorem toDate_min (a b : Int) : toDate (min a b) = min (toDate a) (toDate b) := by
  rcases le_total a b with h | h
  · rw [min_eq_left h, min_eq_left (toDate_mono h)]
  · rw [min_eq_right h, min_eq_right (toDate_mono h)]

theorem window_end_eq (s now : Int) :
    toDate (min (s + days 100) (now - days 1)) =
      min (toDate s + 100) (toDate (now - days 1)) := by
  rw [toDate_min, toDate_add_days]

end TapTalkable

namespace TapTalkable

/-! Claim theorems. -/

/-- Claim C1 (counterexample): with previous token 2024-01-05T00:00 and a
request window 2024-01-01 .. 2024-01-05 (day numbers 19723 and 19727), the
newly computed token again equals the immediately preceding token, and the
campaign-metrics stream returns it as a normal value and keeps paginating —
no pagination-loop error is raised. -/
theorem c1_counterexample :
    CampaignMetricsStream.get_next_page_token ⟨19723, 19727⟩ (some (midnight 19727))
      = Except.ok (some (midnight 19727)) := rfl

/-- Claim C1 (amended): the campaign-metrics stream performs no
pagination-loop detection: `get_next_page_token` ignores the previous token,
never raises, and returns the request's end date as the next token whenever
the start date precedes the end date — even when that token equals the
immediately preceding one. -/
theorem c1_no_loop_detection (request : CampaignMetricsStream.RequestWindow)
    (previous_token : Option Int) :
    CampaignMetricsStream.get_next_page_token request previous_token
      = Except.ok (if request.start_date < request.end_date
          then some (midnight request.end_date) else none) := by
  unfold CampaignMetricsStream.get_next_page_token
  simp [toDate_midnight]

/-- Claim C2: every window requested by the campaign-metrics stream satisfies
`end_date = min(start_date + 100 days, yesterday)` where yesterday is the run
time minus one day; hence no window extends past yesterday and none spans
more than 100 days. -/
theorem c2_window_bounds (config : Config)
    (context : CampaignMetricsStream.MetricsContext)
    (starting_timestamp : Option Int) (next_page_token : Option Int) (now : Int) :
    (CampaignMetricsStream.get_url_params config context starting_timestamp next_page_token now).end_date
      = min ((CampaignMetricsStream.get_url_params config context starting_timestamp next_page_token now).start_date + 100)
          (toDate (now - days 1)) ∧
    (CampaignMetricsStream.get_url_params config context starting_timestamp next_page_token now).end_date
      ≤ toDate (now - days 1) ∧
    (CampaignMetricsStream.get_url_params config context starting_timestamp next_page_token now).end_date
      ≤ (CampaignMetricsStream.get_url_params config context starting_timestamp next_page_token now).start_date + 100 := by
  unfold CampaignMetricsStream.get_url_params
  cases next_page_token with
  | none =>
    simp only [window_end_eq]
    exact ⟨trivial, min_le_right _ _, min_le_left _ _⟩
  | some t =>
    simp only [window_end_eq]
    exact ⟨trivial, min_le_right _ _, min_le_left _ _⟩

/-- Claim C3: a next-page token of the campaign-metrics stream is exactly the
previous request's end date (as a midnight datetime), produced iff the start
date precedes the end date — so the next window's start equals the previous
window's end and pagination terminates exactly when start ≥ end; the first
window (no token) starts at the incremental checkpoint when one exists,
otherwise at the configured start date. -/
theorem c3_pagination_chain :
    (∀ (request : CampaignMetricsStream.RequestWindow) (previous_token : Option Int),
        CampaignMetricsStream.get_next_page_token request previous_token = Except.ok none
          ↔ request.end_date ≤ request.start_date) ∧
    (∀ (request : CampaignMetricsStream.RequestWindow) (previous_token : Option Int) (t : Int),
        CampaignMetricsStream.get_next_page_token request previous_token = Except.ok (some t) →
        ∀ (config : Config) (context : CampaignMetricsStream.MetricsContext)
          (starting_timestamp : Option Int) (now : Int),
          (CampaignMetricsStream.get_url_params config context starting_timestamp (some t) now).start_date
            = request.end_date) ∧
    (∀ (config : Config) (context : CampaignMetricsStream.MetricsContext)
        (checkpoint : Int) (now : Int),
        (CampaignMetricsStream.get_url_params config context (some checkpoint) none now).start_date
          = toDate checkpoint) ∧
    (∀ (config : Config) (context : CampaignMetricsStream.MetricsContext) (now : Int),
        (CampaignMetricsStream.get_url_params config context none none now).start_date
          = toDate config.start_date) := by
  refine ⟨?_, ?_, ?_, ?_⟩
  · intro request previous_token
    unfold CampaignMetricsStream.get_next_page_token
    simp [toDate_midnight]
  · intro request previous_token t h config context starting_timestamp now
    unfold CampaignMetricsStream.get_next_page_token at h
    simp only [toDate_midnight] at h
    by_cases hlt : request.start_date < request.end_date
    · rw [if_pos hlt] at h
      have ht : t = midnight request.end_date := by
        cases h
        rfl
      subst ht
      unfold CampaignMetricsStream.get_url_params
      exact toDate_midnight _
    · rw [if_neg hlt] at h
      cases h
  · intro config context checkpoint now
    rfl
  · intro config context now
    rfl

/-- Claim C3 witness: a concrete token round-trip — the request window
[day 0, day 5] yields token midnight-of-day-5, and the next request built
from that token starts on day 5. -/
theorem c3_witness :
    (CampaignMetricsStream.get_url_params ⟨"key", "site", 0, none⟩ ⟨"offers", 7⟩ none
        (some (midnight 5)) 0).start_date = 5 :=
  c3_pagination_chain.2.1 ⟨0, 5⟩ none (midnight 5) rfl ⟨"key", "site", 0, none⟩ ⟨"offers", 7⟩ none 0

/-- Claim C4: response validation of the campaign-metrics stream classifies a
429 as retriable, any other status in [400, 500) as fatal, and any status in
[500, 600) as retriable. -/
theorem c4_status_classification (status_code : Nat) (reason : String) :
    (status_code = 429 →
      ∃ m, CampaignMetricsStream.validate_response status_code reason
        = some (CampaignMetricsStream.ApiError.RetriableAPIError m)) ∧
    (400 ≤ status_code → status_code < 500 → status_code ≠ 429 →
      ∃ m, CampaignMetricsStream.validate_response status_code reason
        = some (CampaignMetricsStream.ApiError.FatalAPIError m)) ∧
    (500 ≤ status_code → status_code < 600 →
      ∃ m, CampaignMetricsStream.validate_response status_code reason
        = some (CampaignMetricsStream.ApiError.RetriableAPIError m)) := by
  unfold CampaignMetricsStream.validate_response
  refine ⟨?_, ?_, ?_⟩
  · intro h
    subst h
    simp
  · intro h1 h2 h3
    rw [if_neg h3, if_pos ⟨h1, h2⟩]
    exact ⟨_, rfl⟩
  · intro h1 h2
    rw [if_neg (by omega), if_neg (by omega), if_pos ⟨h1, h2⟩]
    exact ⟨_, rfl⟩

/-- Claim C4 witness: 429 is retriable, 404 fatal, 503 retriable. -/
theorem c4_witness :
    (∃ m, CampaignMetricsStream.validate_response 429 ("Too Many Requests")
      = some (CampaignMetricsStream.ApiError.RetriableAPIError m)) ∧
    (∃ m, CampaignMetricsStream.validate_response 404 ("Not Found")
      = some (CampaignMetricsStream.ApiError.FatalAPIError m)) ∧
    (∃ m, CampaignMetricsStream.validate_response 503 ("Service Unavailable")
      = some (CampaignMetricsStream.ApiError.RetriableAPIError m)) :=
  ⟨(c4_status_classification 429 ("Too Many Requests")).1 rfl,
   (c4_status_classification 404 ("Not Found")).2.1 (by decide) (by decide) (by decide),
   (c4_status_classification 503 ("Service Unavailable")).2.2 (by decide) (by decide)⟩

/-- Claim C5: post-processing sets `date` to the `%m/%d/%y` parse of the
first space-separated token of `period`; in particular a record with period
"03/15/24 00:00" gets the date 2024-03-15. -/
theorem c5_post_process_date :
    (∀ (row : CampaignMetricsStream.MetricsRow) (d : CampaignMetricsStream.Date),
        CampaignMetricsStream.strptime_mdy (CampaignMetricsStream.firstSpaceToken row.period) = some d →
        CampaignMetricsStream.post_process row = some { row with date := some d }) ∧
    CampaignMetricsStream.post_process ⟨"03/15/24 00:00", none, []⟩
      = some ⟨"03/15/24 00:00", some ⟨2024, 3, 15⟩, []⟩ := by
  constructor
  · intro row d h
    unfold CampaignMetricsStream.post_process
    rw [h]
    rfl
  · rfl

/-- Claim C5 witness: a concrete parse through the general statement —
period "01/02/03 junk" gives the date 2003-01-02. -/
theorem c5_witness :
    CampaignMetricsStream.post_process ⟨"01/02/03 junk", none, []⟩
      = some ⟨"01/02/03 junk", some ⟨2003, 1, 2⟩, []⟩ :=
  c5_post_process_date.1 ⟨"01/02/03 junk", none, []⟩ ⟨2003, 1, 2⟩ rfl

/-- Claim C6 (counterexample): the fixed metrics list has 103 entries, which
is not within the claimed 70–90. -/
theorem c6_counterexample : METRICS.length = 103 ∧ ¬ METRICS.length ≤ 90 := by
  constructor
  · rfl
  · decide

/-- Claim C6 (amended): every metric identifier used by the campaign-metrics
stream — one stream partition per metric, and the `metric` field of every
emitted record — is drawn from the single fixed closed list `METRICS`, the
concatenation of the four named metric groups, with 103 entries in total. -/
theorem c6_metrics_closed_list :
    METRICS = MATH_METRICS ++ FRIEND_SALES_METRICS ++ ADVOCATE_SALES_METRICS ++ PREDEFINED_METRICS ∧
    METRICS.length = 103 ∧
    (∀ p ∈ CampaignMetricsStream.partitions, p.metric ∈ METRICS) ∧
    (∀ p ∈ CampaignMetricsStream.partitions,
      ∀ (parent : CampaignsStream.ChildContext) (row : CampaignMetricsStream.MetricsRow),
        (CampaignMetricsStream.emit_record (CampaignMetricsStream.context_for p parent) row).metric
          ∈ METRICS) := by
  refine ⟨rfl, rfl, ?_, ?_⟩
  · intro p hp
    unfold CampaignMetricsStream.partitions at hp
    obtain ⟨m, hm, rfl⟩ := List.mem_map.mp hp
    exact hm
  · intro p hp parent row
    unfold CampaignMetricsStream.partitions at hp
    obtain ⟨m, hm, rfl⟩ := List.mem_map.mp hp
    exact hm

/-- Claim C6 witness: the partition for the metric "offers" draws it from
`METRICS`, and a record emitted under that partition for campaign 42 carries
a `metric` field drawn from `METRICS`. -/
theorem c6_witness :
    (⟨"offers"⟩ : CampaignMetricsStream.Partition).metric ∈ METRICS ∧
    (CampaignMetricsStream.emit_record
        (CampaignMetricsStream.context_for ⟨"offers"⟩ ⟨42⟩)
        ⟨"03/15/24 00:00", none, []⟩).metric ∈ METRICS :=
  ⟨c6_metrics_closed_list.2.2.1 ⟨"offers"⟩ (by decide),
   c6_metrics_closed_list.2.2.2 ⟨"offers"⟩ (by decide) ⟨42⟩ ⟨"03/15/24 00:00", none, []⟩⟩

/-- Claim C7: the child context derived from a campaign record is exactly its
id under the key `campaign_id`; for a record with id 42 it is
`{campaign_id := 42}`. -/
theorem c7_child_context :
    (∀ (record : CampaignsStream.CampaignRecord) (context : Option Json),
        CampaignsStream.get_child_context record context = ⟨record.id⟩) ∧
    CampaignsStream.get_child_context ⟨42, 0, true, "", [], "Campaign", "live", [], "", 0, 0⟩ none
      = ⟨42⟩ :=
  ⟨fun _ _ => rfl, rfl⟩

/-- Claim C8: response validation of the campaign-metrics stream raises
nothing for a status below 400 or at 600 and above. -/
theorem c8_validation_silent (status_code : Nat) (reason : String)
    (h : status_code < 400 ∨ 600 ≤ status_code) :
    CampaignMetricsStream.validate_response status_code reason = none := by
  unfold CampaignMetricsStream.validate_response
  rw [if_neg (by omega), if_neg (by omega), if_neg (by omega)]

/-- Claim C8 witness: statuses 200 and 600 pass validation silently. -/
theorem c8_witness :
    CampaignMetricsStream.validate_response 200 ("OK") = none ∧
    CampaignMetricsStream.validate_response 600 ("Unknown") = none :=
  ⟨c8_validation_silent 200 ("OK") (Or.inl (by decide)),
   c8_validation_silent 600 ("Unknown") (Or.inr (by decide))⟩

/-- Claim C9: the base stream's next-page token depends only on the response
body: the JSON-path attribute is the non-empty "$.next_page", so the
`X-Next-Page` header fallback is never taken, and two responses with equal
bodies but different headers yield equal tokens. -/
theorem c9_token_ignores_headers :
    TalkableStream.next_page_token_jsonpath = "$.next_page" ∧
    ∀ (body : Json) (headers₁ headers₂ : List (String × String))
      (previous₁ previous₂ : Option Json),
      TalkableStream.get_next_page_token ⟨body, headers₁⟩ previous₁
        = TalkableStream.get_next_page_token ⟨body, headers₂⟩ previous₂ :=
  ⟨rfl, fun _ _ _ _ _ => rfl⟩

/-- Claim C10: the campaigns and traffic-sources streams always send exactly
`{site_slug: config.site_slug}`, for every context and next-page token — no
page parameter is ever sent. -/
theorem c10_constant_params (config : Config) (context : Option Json)
    (next_page_token : Option Json) :
    CampaignsStream.get_url_params config context next_page_token
      = [("site_slug", config.site_slug)] ∧
    TrafficSourcesStream.get_url_params config context next_page_token
      = [("site_slug", config.site_slug)] :=
  ⟨rfl, rfl⟩

end TapTalkable
